import Mathlib

/-!
Verification of the `yfile` header-only file utility library
(`src/include/yfile.h`) against its natural-language specification.

The C code is stateful and talks to the operating system, so each routine is
shallowly embedded as a pure Lean function over an explicit environment that
records the outcome of every OS call the routine makes (success/failure flags,
returned attribute bitmasks, per-call write progress, and so on).  Machine
integers are modelled as `Nat`/`Int`; the sentinel values `0`, `1`, `-1`
(`FILE_SUCCESS`, `FILE_FALSE`, `FILE_ERROR`) are kept as `Int` results.
Null pointers are modelled with `Option` (`none` = `NULL`).

Each embedded definition mirrors one C function of `yfile.h` and keeps its
name.  Outputs additionally carry observable traces (list of write calls
performed, whether the delete was attempted, which step failed, ...) so that
the specification's claims about behaviour and control flow can be stated.
-/

/-! ## Secure delete (`file_secure_delete_ex`, yfile.h lines 186-253)

The routine opens the file, asks its size, allocates a zero buffer of
`buflen = filesz > buffer_length ? buffer_length : filesz` bytes, seeks to the
start, writes `filesz / buflen` full chunks, writes one remainder chunk of
`filesz - loopcount * buflen` bytes when that is nonzero, then flushes, closes
and deletes.  Every OS interaction is abstracted by the `SDEnv` record: a
field is `true`/`some _` when the corresponding call would succeed.
`writeOk i` is the outcome of the `i`-th `file_write` call (`false` means
`file_write` returned `0`).
-/

/-- Which step of `file_secure_delete_ex` caused an early abort. -/
inductive SDStep where
  | openf
  | sizeq
  | alloc
  | seek
  | write
  | allocRem
  | flush
  | close
  | delete
deriving DecidableEq, Repr

/-- Outcomes of the OS calls made by one run of `file_secure_delete_ex`. -/
structure SDEnv where
  openOk : Bool
  sizeResult : Option Nat
  allocOk : Bool
  seekOk : Bool
  writeOk : Nat → Bool
  allocRemOk : Bool
  flushOk : Bool
  closeOk : Bool
  deleteOk : Bool

/-- Observable result of a run of `file_secure_delete_ex`: the returned
sentinel, the sizes of the `file_write` calls performed (in order), whether
the seek to offset 0 succeeded before the writes, whether `file_delete` was
invoked and whether it succeeded, and which step (if any) failed. -/
structure SDOut where
  result : Int
  writeCalls : List Nat
  soughtToStart : Bool
  deleteAttempted : Bool
  deleteSucceeded : Bool
  failedStep : Option SDStep
deriving DecidableEq, Repr

/-- The chunk size chosen by `file_secure_delete_ex` (yfile.h line 204):
`size_t buflen = filesz > buffer_length ? buffer_length : filesz;`.
This is also the divisor of the `loopcount` computation on line 212. -/
def chunkSize (filesz buffer_length : Nat) : Nat :=
  if filesz > buffer_length then buffer_length else filesz

/-- Ceiling division on naturals: `ceil(a / b)` for `b > 0`. -/
def ceilDivNat (a b : Nat) : Nat :=
  (a + b - 1) / b

/-- The overwrite loop of `file_secure_delete_ex` (yfile.h lines 218-225):
`n` remaining iterations, `i` the index of the next `file_write` call.
Returns the sizes of the `file_write` calls made and whether they all
returned nonzero (the loop aborts at the first call returning `0`). -/
def sdWriteLoop (writeOk : Nat → Bool) (buflen : Nat) : Nat → Nat → List Nat × Bool
  | _, 0 => ([], true)
  | i, n + 1 =>
    if writeOk i then
      let r := sdWriteLoop writeOk buflen (i + 1) n
      (buflen :: r.1, r.2)
    else ([buflen], false)

/-- Tail of `file_secure_delete_ex` after a fully successful overwrite
(yfile.h lines 245-252): flush, close, then delete, each aborting with `-1`
on failure.  `calls` is the write trace accumulated so far. -/
def sdFinish (env : SDEnv) (calls : List Nat) : SDOut :=
  if env.flushOk = false then ⟨-1, calls, true, false, false, some .flush⟩
  else if env.closeOk = false then ⟨-1, calls, true, false, false, some .close⟩
  else if env.deleteOk then ⟨0, calls, true, true, true, none⟩
  else ⟨-1, calls, true, true, false, some .delete⟩

/-- Remainder phase of `file_secure_delete_ex` (yfile.h lines 229-243): when
`remainingbytes = filesz - loopcount * buflen` is nonzero, allocate the
smaller buffer and perform the `file_write` call with index `loopcount`,
then proceed to the flush/close/delete tail. -/
def sdRemPhase (env : SDEnv) (loopcount remainingbytes : Nat) (calls : List Nat) : SDOut :=
  if remainingbytes > 0 then
    if env.allocRemOk = false then ⟨-1, calls, true, false, false, some .allocRem⟩
    else if env.writeOk loopcount = false then
      ⟨-1, calls ++ [remainingbytes], true, false, false, some .write⟩
    else sdFinish env (calls ++ [remainingbytes])
  else sdFinish env calls

/-- Overwrite phase of `file_secure_delete_ex` (yfile.h lines 212-243),
entered after the successful seek to offset 0: run the full-chunk loop with
`loopcount = filesz / buflen` iterations, aborting with `-1` when a
`file_write` call returns 0, then handle the remainder. -/
def sdOverwrite (env : SDEnv) (filesz buflen : Nat) : SDOut :=
  if (sdWriteLoop env.writeOk buflen 0 (filesz / buflen)).2 = false then
    ⟨-1, (sdWriteLoop env.writeOk buflen 0 (filesz / buflen)).1, true, false, false, some .write⟩
  else
    sdRemPhase env (filesz / buflen) (filesz - filesz / buflen * buflen)
      (sdWriteLoop env.writeOk buflen 0 (filesz / buflen)).1

/-- Shallow embedding of `file_secure_delete_ex` (yfile.h lines 186-253).
`filenameNull` models `filename == NULL`; `buffer_length` is the configured
chunk length; `env` fixes the outcome of every OS call of this run. -/
def file_secure_delete_ex (filenameNull : Bool) (buffer_length : Nat) (env : SDEnv) : SDOut :=
  if filenameNull then ⟨-1, [], false, false, false, none⟩
  else if env.openOk = false then ⟨-1, [], false, false, false, some .openf⟩
  else
    match env.sizeResult with
    | none => ⟨-1, [], false, false, false, some .sizeq⟩
    | some filesz =>
      if filesz = 0 then ⟨0, [], false, true, env.deleteOk, none⟩
      else if env.allocOk = false then ⟨-1, [], false, false, false, some .alloc⟩
      else if env.seekOk = false then ⟨-1, [], false, false, false, some .seek⟩
      else sdOverwrite env filesz (chunkSize filesz buffer_length)

/-- The target path no longer exists after the run: `file_delete` was both
invoked and successful. -/
def fileRemovedAfter (o : SDOut) : Bool :=
  o.deleteAttempted && o.deleteSucceeded

/-- C10: `file_secure_delete_ex` is well-defined only when `buffer_length`
is positive or the file is empty.  For every non-empty file size the chunk
size chosen at `buffer_length = 0` is `0`, so the `loopcount` computation
`filesz / buflen` divides by zero; conversely every positive `buffer_length`
yields a positive divisor, so totality requires `0 < buffer_length`. -/
theorem claim_C10 (filesz : Nat) (hS : 0 < filesz) :
    chunkSize filesz 0 = 0 ∧ ∀ buffer_length, 0 < buffer_length → 0 < chunkSize filesz buffer_length := by
  constructor
  · simp [chunkSize, hS]
  · intro bl hbl
    unfold chunkSize
    split <;> omega

/-- Witness for C10 at the concrete file size 5. -/
theorem claim_C10_witness :
    chunkSize 5 0 = 0 ∧ ∀ buffer_length, 0 < buffer_length → 0 < chunkSize 5 buffer_length :=
  claim_C10 5 (by decide)

/-- The chunk size is positive whenever the file is non-empty and the
configured buffer length is positive. -/
theorem chunkSize_pos (S C : Nat) (hS : 0 < S) (hC : 0 < C) : 0 < chunkSize S C := by
  unfold chunkSize
  split <;> omega

/-- The remainder computed on yfile.h line 229,
`filesz - loopcount * buflen`, equals `filesz % buflen`. -/
theorem sub_div_mul_eq_mod (S m : Nat) : S - S / m * m = S % m := by
  have h1 : m * (S / m) + S % m = S := Nat.div_add_mod S m
  have h2 : S / m * m = m * (S / m) := Nat.mul_comm _ _
  omega

/-- Ceiling division characterized through floor division and the remainder. -/
theorem ceilDivNat_eq_div_add_ite (S C : Nat) (hC : 0 < C) :
    ceilDivNat S C = S / C + (if S % C = 0 then 0 else 1) := by
  have hdm : C * (S / C) + S % C = S := Nat.div_add_mod S C
  have hmlt : S % C < C := Nat.mod_lt _ hC
  unfold ceilDivNat
  by_cases h0 : S % C = 0
  · rw [if_pos h0]
    have e1 : S + C - 1 = (C - 1) + C * (S / C) := by omega
    rw [e1, Nat.add_mul_div_left _ _ hC, Nat.div_eq_of_lt (by omega), Nat.zero_add, Nat.add_zero]
  · rw [if_neg h0]
    have e2 : C * (S / C + 1) = C * (S / C) + C := by ring
    have e1 : S + C - 1 = (S % C - 1) + C * (S / C + 1) := by omega
    rw [e1, Nat.add_mul_div_left _ _ hC, Nat.div_eq_of_lt (by omega), Nat.zero_add]

/-- The full-chunk count plus the remainder write equals `ceil(S / C)`. -/
theorem chunk_count (S C : Nat) (hS : 0 < S) (hC : 0 < C) :
    S / chunkSize S C + (if S % chunkSize S C = 0 then 0 else 1) = ceilDivNat S C := by
  rw [ceilDivNat_eq_div_add_ite S C hC]
  unfold chunkSize
  split
  · rfl
  · rename_i h
    rw [Nat.div_self hS, Nat.mod_self, if_pos rfl]
    rcases Nat.lt_or_ge S C with hlt | hge
    · rw [Nat.div_eq_of_lt hlt, Nat.mod_eq_of_lt hlt, if_neg hS.ne']
    · have hSC : S = C := le_antisymm (by omega) hge
      subst hSC
      rw [Nat.div_self hS, Nat.mod_self, if_pos rfl]

/-- When every `file_write` call succeeds, the overwrite loop performs
exactly `n` calls of `buflen` bytes each. -/
theorem sdWriteLoop_all_ok (wk : Nat → Bool) (buflen : Nat) (h : ∀ i, wk i = true) :
    ∀ n i, sdWriteLoop wk buflen i n = (List.replicate n buflen, true) := by
  intro n
  induction n with
  | zero => intro i; rfl
  | succ n ih =>
    intro i
    simp [sdWriteLoop, h i, ih (i + 1), List.replicate_succ]

/-- The flush/close/delete tail never changes the write trace and is only
reached after the successful seek to the start. -/
theorem sdFinish_spec (env : SDEnv) (calls : List Nat) :
    (sdFinish env calls).writeCalls = calls ∧ (sdFinish env calls).soughtToStart = true := by
  unfold sdFinish
  split
  · exact ⟨rfl, rfl⟩
  · split
    · exact ⟨rfl, rfl⟩
    · split
      · exact ⟨rfl, rfl⟩
      · exact ⟨rfl, rfl⟩

/-- C1: on a file of size `S > 0` with configured chunk length `C > 0`, when
every OS step succeeds, `file_secure_delete_ex` performs exactly
`ceil(S/C)` zero-overwrite write calls: `floor(S / min(C,S))` full chunks of
`chunkSize S C = min(C,S)` bytes, written sequentially after the seek to
offset 0, plus exactly one remainder write of `S mod min(C,S)` bytes iff
that remainder is nonzero. -/
theorem claim_C1 (C S : Nat) (env : SDEnv) (hS : 0 < S) (hC : 0 < C)
    (hopen : env.openOk = true) (hsize : env.sizeResult = some S)
    (halloc : env.allocOk = true) (hseek : env.seekOk = true)
    (hw : ∀ i, env.writeOk i = true) (hrem : env.allocRemOk = true) :
    (file_secure_delete_ex false C env).writeCalls =
        List.replicate (S / chunkSize S C) (chunkSize S C) ++
          (if S % chunkSize S C = 0 then [] else [S % chunkSize S C]) ∧
      (file_secure_delete_ex false C env).writeCalls.length = ceilDivNat S C ∧
      (file_secure_delete_ex false C env).soughtToStart = true := by
  have hS0 : S ≠ 0 := hS.ne'
  have hloop : sdWriteLoop env.writeOk (chunkSize S C) 0 (S / chunkSize S C) =
      (List.replicate (S / chunkSize S C) (chunkSize S C), true) :=
    sdWriteLoop_all_ok env.writeOk (chunkSize S C) hw (S / chunkSize S C) 0
  have hsub := sub_div_mul_eq_mod S (chunkSize S C)
  have hfin1 : ∀ calls, (sdFinish env calls).writeCalls = calls :=
    fun c => (sdFinish_spec env c).1
  have hfin2 : ∀ calls, (sdFinish env calls).soughtToStart = true :=
    fun c => (sdFinish_spec env c).2
  obtain ⟨hcalls, hsought⟩ : (file_secure_delete_ex false C env).writeCalls =
      List.replicate (S / chunkSize S C) (chunkSize S C) ++
        (if S % chunkSize S C = 0 then [] else [S % chunkSize S C]) ∧
      (file_secure_delete_ex false C env).soughtToStart = true := by
    by_cases h0 : S % chunkSize S C = 0
    · simp [file_secure_delete_ex, sdOverwrite, sdRemPhase, hsize, hopen, halloc, hseek,
        hrem, hS0, hloop, hsub, h0, hw, hfin1, hfin2]
    · simp [file_secure_delete_ex, sdOverwrite, sdRemPhase, hsize, hopen, halloc, hseek,
        hrem, hS0, hloop, hsub, h0, hw, hfin1, hfin2, Nat.pos_of_ne_zero h0]
  refine ⟨hcalls, ?_, hsought⟩
  rw [hcalls, List.length_append, List.length_replicate]
  by_cases h0 : S % chunkSize S C = 0
  · have hc := chunk_count S C hS hC
    rw [if_pos h0] at hc ⊢
    simpa using hc
  · have hc := chunk_count S C hS hC
    rw [if_neg h0] at hc ⊢
    simpa using hc

/-- Witness for C1: file of size 5, chunk length 2, all OS calls succeed;
the run writes chunks of sizes 2, 2 and 1, i.e. `ceil(5/2) = 3` calls. -/
theorem claim_C1_witness :
    (file_secure_delete_ex false 2
          ⟨true, some 5, true, true, fun _ => true, true, true, true, true⟩).writeCalls =
        List.replicate (5 / chunkSize 5 2) (chunkSize 5 2) ++
          (if 5 % chunkSize 5 2 = 0 then [] else [5 % chunkSize 5 2]) ∧
      (file_secure_delete_ex false 2
          ⟨true, some 5, true, true, fun _ => true, true, true, true, true⟩).writeCalls.length =
        ceilDivNat 5 2 ∧
      (file_secure_delete_ex false 2
          ⟨true, some 5, true, true, fun _ => true, true, true, true, true⟩).soughtToStart = true :=
  claim_C1 2 5 ⟨true, some 5, true, true, fun _ => true, true, true, true, true⟩
    (by decide) (by decide) rfl rfl rfl rfl (fun _ => rfl) rfl

/-- A run aborted by a failed step other than the open and the delete
returned `-1` and never invoked `file_delete`. -/
def SDAborted (o : SDOut) : Prop :=
  ∀ s, o.failedStep = some s → s ≠ SDStep.openf → s ≠ SDStep.delete →
    o.result = -1 ∧ o.deleteAttempted = false

/-- The flush/close/delete tail satisfies the abort invariant. -/
theorem sdFinish_aborted (env : SDEnv) (calls : List Nat) : SDAborted (sdFinish env calls) := by
  unfold SDAborted
  intro s
  unfold sdFinish
  split
  · intro hs h1 h2
    exact ⟨rfl, rfl⟩
  · split
    · intro hs h1 h2
      exact ⟨rfl, rfl⟩
    · split
      · intro hs h1 h2
        exact Option.noConfusion hs
      · intro hs h1 h2
        exact absurd (Option.some.inj hs).symm h2

/-- The remainder phase satisfies the abort invariant. -/
theorem sdRemPhase_aborted (env : SDEnv) (loopcount remainingbytes : Nat) (calls : List Nat) :
    SDAborted (sdRemPhase env loopcount remainingbytes calls) := by
  unfold SDAborted
  intro s
  unfold sdRemPhase
  split
  · split
    · intro hs h1 h2
      exact ⟨rfl, rfl⟩
    · split
      · intro hs h1 h2
        exact ⟨rfl, rfl⟩
      · exact fun hs h1 h2 => sdFinish_aborted env (calls ++ [remainingbytes]) s hs h1 h2
  · exact fun hs h1 h2 => sdFinish_aborted env calls s hs h1 h2

/-- The overwrite phase satisfies the abort invariant. -/
theorem sdOverwrite_aborted (env : SDEnv) (filesz buflen : Nat) :
    SDAborted (sdOverwrite env filesz buflen) := by
  unfold SDAborted
  intro s
  unfold sdOverwrite
  split
  · intro hs h1 h2
    exact ⟨rfl, rfl⟩
  · exact fun hs h1 h2 =>
      sdRemPhase_aborted env (filesz / buflen) (filesz - filesz / buflen * buflen)
        (sdWriteLoop env.writeOk buflen 0 (filesz / buflen)).1 s hs h1 h2

/-- Every run of `file_secure_delete_ex` satisfies the abort invariant. -/
theorem sd_aborted (fn : Bool) (bl : Nat) (env : SDEnv) :
    SDAborted (file_secure_delete_ex fn bl env) := by
  unfold SDAborted
  intro s
  unfold file_secure_delete_ex
  split
  · intro hs h1 h2
    exact Option.noConfusion hs
  · split
    · intro hs h1 h2
      exact absurd (Option.some.inj hs).symm h1
    · split
      · intro hs h1 h2
        exact ⟨rfl, rfl⟩
      · split
        · intro hs h1 h2
          exact Option.noConfusion hs
        · split
          · intro hs h1 h2
            exact ⟨rfl, rfl⟩
          · split
            · intro hs h1 h2
              exact ⟨rfl, rfl⟩
            · exact fun hs h1 h2 => sdOverwrite_aborted env _ _ s hs h1 h2

/-- C2: whenever a step of `file_secure_delete_ex` after a successful open
fails — the size query, a buffer allocation, the seek to the start, any
zero-overwrite write, the flush, or the close — the function returns the
error sentinel `-1`, never invokes `file_delete`, and the (possibly
partially overwritten) file is left in place. -/
theorem claim_C2 (buffer_length : Nat) (env : SDEnv) (s : SDStep)
    (hfail : (file_secure_delete_ex false buffer_length env).failedStep = some s)
    (hopen : s ≠ SDStep.openf) (hdel : s ≠ SDStep.delete) :
    (file_secure_delete_ex false buffer_length env).result = -1 ∧
      (file_secure_delete_ex false buffer_length env).deleteAttempted = false ∧
      fileRemovedAfter (file_secure_delete_ex false buffer_length env) = false := by
  obtain ⟨hres, hda⟩ := sd_aborted false buffer_length env s hfail hopen hdel
  refine ⟨hres, hda, ?_⟩
  unfold fileRemovedAfter
  rw [hda]
  rfl

/-- Witness for C2: file of size 3, chunk length 2, every step succeeds up
to the flush, which fails; the run returns `-1` and the file is not
deleted. -/
theorem claim_C2_witness :
    (file_secure_delete_ex false 2
          ⟨true, some 3, true, true, fun _ => true, true, false, true, true⟩).result = -1 ∧
      (file_secure_delete_ex false 2
          ⟨true, some 3, true, true, fun _ => true, true, false, true, true⟩).deleteAttempted = false ∧
      fileRemovedAfter (file_secure_delete_ex false 2
          ⟨true, some 3, true, true, fun _ => true, true, false, true, true⟩) = false :=
  claim_C2 2 ⟨true, some 3, true, true, fun _ => true, true, false, true, true⟩
    SDStep.flush rfl (by decide) (by decide)

/-- C3 (code bug, yfile.h line 198): on a zero-length file the code runs
`file_close(fp); file_delete(filename); return 0;`, ignoring the result of
`file_delete`.  At the failing input below — a zero-length file whose OS
delete call fails — the function performs zero overwrite writes, attempts
the delete, and still returns 0 (success) although the path continues to
exist, contradicting the claim that a success return implies the path is
gone. -/
theorem claim_C3_bug :
    (file_secure_delete_ex false 8
          ⟨true, some 0, true, true, fun _ => true, true, true, true, false⟩).result = 0 ∧
      (file_secure_delete_ex false 8
          ⟨true, some 0, true, true, fun _ => true, true, true, true, false⟩).writeCalls = [] ∧
      (file_secure_delete_ex false 8
          ⟨true, some 0, true, true, fun _ => true, true, true, true, false⟩).deleteAttempted = true ∧
      fileRemovedAfter (file_secure_delete_ex false 8
          ⟨true, some 0, true, true, fun _ => true, true, true, true, false⟩) = false :=
  ⟨rfl, rfl, rfl, rfl⟩

/-! ## file_write (yfile.h lines 387-408)

`file_write` loops calling `fwrite` until `len` bytes are written.  When a
call returns 0 it returns 0 if `ferror` reports a stream error, and
otherwise breaks out of the loop, returning the total written so far.  The
`k`-th `fwrite` call is modelled by `env k = (written, ferror)`: the number
of items it reports written (clamped to the `len - total` items actually
requested, as `fwrite` never reports more than its `count` argument) and
whether `ferror` would report an error afterwards.  The fuel argument
starts at `len` and only ever decreases by the progress made, so it never
runs out before the loop condition `total < len` turns false. -/

/-- Result of a `file_write` run: the returned byte count, whether an OS
(`ferror`) error occurred, and whether the loop broke out early on a
zero-progress call without error. -/
structure WriteOut where
  result : Nat
  errored : Bool
  broke : Bool
deriving DecidableEq, Repr

/-- The write loop of `file_write` (yfile.h lines 393-405).  Arguments
after `len`: index `k` of the next `fwrite` call, bytes written so far
`total`, and the remaining fuel (an upper bound on `len - total`). -/
def file_write_loop (env : Nat → Nat × Bool) (len : Nat) : Nat → Nat → Nat → WriteOut
  | _, total, 0 => ⟨total, false, false⟩
  | k, total, fuel + 1 =>
    if total < len then
      if min (env k).1 (len - total) = 0 then
        if (env k).2 then ⟨0, true, false⟩ else ⟨total, false, true⟩
      else file_write_loop env len (k + 1) (total + min (env k).1 (len - total)) fuel
    else ⟨total, false, false⟩

/-- Shallow embedding of `file_write` (yfile.h lines 387-408): null `fp`,
null `buf` or a zero-length request return 0 immediately, otherwise the
write loop runs. -/
def file_write (fpNull bufNull : Bool) (len : Nat) (env : Nat → Nat × Bool) : WriteOut :=
  if fpNull || bufNull || (len == 0) then ⟨0, false, false⟩
  else file_write_loop env len 0 0 len

/-- An errored run of the write loop returns 0. -/
theorem file_write_loop_errored (env : Nat → Nat × Bool) (len : Nat) :
    ∀ fuel k total, (file_write_loop env len k total fuel).errored = true →
      (file_write_loop env len k total fuel).result = 0 := by
  intro fuel
  induction fuel with
  | zero =>
    intro k total h
    exact absurd h (by simp [file_write_loop])
  | succ fuel ih =>
    intro k total
    simp only [file_write_loop]
    split
    · split
      · split
        · intro _
          rfl
        · intro h
          exact absurd h (by simp)
      · exact ih (k + 1) _
    · intro h
      exact absurd h (by simp)

/-- A non-errored run of the write loop returns at least the bytes already
written when it was entered. -/
theorem file_write_loop_le (env : Nat → Nat × Bool) (len : Nat) :
    ∀ fuel k total, (file_write_loop env len k total fuel).errored = false →
      total ≤ (file_write_loop env len k total fuel).result := by
  intro fuel
  induction fuel with
  | zero =>
    intro k total _
    exact Nat.le_refl total
  | succ fuel ih =>
    intro k total
    simp only [file_write_loop]
    split
    · split
      · split
        · intro h
          exact absurd h (by simp)
        · intro _
          exact Nat.le_refl total
      · intro h
        exact Nat.le_trans (Nat.le_add_right total _) (ih (k + 1) _ h)
    · intro _
      exact Nat.le_refl total

/-- With enough fuel (`len - total`), a run that neither errors nor breaks
early loops until all `len` bytes are written. -/
theorem file_write_loop_complete (env : Nat → Nat × Bool) (len : Nat) :
    ∀ fuel k total, total ≤ len → len - total ≤ fuel →
      (file_write_loop env len k total fuel).errored = false →
      (file_write_loop env len k total fuel).broke = false →
      (file_write_loop env len k total fuel).result = len := by
  intro fuel
  induction fuel with
  | zero =>
    intro k total h1 h2 _ _
    simp only [file_write_loop]
    exact (by omega : total = len)
  | succ fuel ih =>
    intro k total h1 h2
    simp only [file_write_loop]
    split
    · split
      · split
        · intro h _
          exact absurd h (by simp)
        · intro _ h
          exact absurd h (by simp)
      · exact ih (k + 1) _ (by omega) (by omega)
    · intro _ _
      exact (by omega : total = len)

/-- C4 counterexample: the claim as stated — `file_write` returns 0 only on
a null handle, a null buffer, a zero-length request, or a genuine OS write
error — is false.  With a valid handle and buffer and `len = 1`, when the
very first `fwrite` call makes zero progress and `ferror` reports no error,
the loop breaks before any byte is written and `file_write` returns 0
although none of the four listed conditions holds. -/
theorem claim_C4_counterexample :
    (file_write false false 1 (fun _ => (0, false))).result = 0 ∧
      (file_write false false 1 (fun _ => (0, false))).errored = false ∧
      (file_write false false 1 (fun _ => (0, false))).broke = true := by
  refine ⟨rfl, rfl, rfl⟩

/-- C4 (amended): `file_write` loops until `len` bytes are written, an OS
error occurs, or an `fwrite` call makes zero progress without error; it
returns 0 on a null handle, a null buffer, a zero-length request, a genuine
OS write error, or when zero progress occurs before any byte was written;
and whenever some bytes were written (the first call made progress) and no
OS error occurred, it returns the positive total written so far rather
than 0. -/
theorem claim_C4_amended (len : Nat) (env : Nat → Nat × Bool) :
    (∀ bufNull, (file_write true bufNull len env).result = 0) ∧
      (∀ fpNull, (file_write fpNull true len env).result = 0) ∧
      (file_write false false 0 env).result = 0 ∧
      ((file_write false false len env).errored = true →
        (file_write false false len env).result = 0) ∧
      ((file_write false false len env).errored = false →
        (file_write false false len env).broke = false → 0 < len →
        (file_write false false len env).result = len) ∧
      ((file_write false false len env).errored = false → 0 < len → 0 < (env 0).1 →
        0 < (file_write false false len env).result) := by
  refine ⟨fun bufNull => rfl, fun fpNull => by cases fpNull <;> rfl, rfl, ?_, ?_, ?_⟩
  · cases len with
    | zero =>
      intro h
      exact absurd h (by simp [file_write])
    | succ m =>
      exact fun h => file_write_loop_errored env (m + 1) (m + 1) 0 0 h
  · cases len with
    | zero =>
      intro _ _ h
      exact absurd h (by omega)
    | succ m =>
      intro h1 h2 _
      exact file_write_loop_complete env (m + 1) (m + 1) 0 0 (by omega) (by omega) h1 h2
  · intro herr hlen hw
    cases len with
    | zero => exact absurd hlen (by omega)
    | succ m =>
      have hred : file_write false false (m + 1) env = file_write_loop env (m + 1) 0 0 (m + 1) :=
        rfl
      rw [hred] at herr ⊢
      simp only [file_write_loop] at herr ⊢
      rw [if_pos (by omega : (0 : Nat) < m + 1),
        if_neg (by omega : ¬ min (env 0).1 (m + 1 - 0) = 0)] at herr ⊢
      have hle := file_write_loop_le env (m + 1) m (0 + 1) (0 + min (env 0).1 (m + 1 - 0)) herr
      omega

/-- Witness for C4 (amended) on a concrete run: two bytes requested, every
`fwrite` call writes one byte without error, so the loop runs to completion
and returns 2. -/
theorem claim_C4_witness :
    (file_write false false 2 (fun _ => (1, false))).result = 2 :=
  (claim_C4_amended 2 (fun _ => (1, false))).2.2.2.2.1 rfl rfl (by decide)

/-! ## Attribute and existence queries (yfile.h lines 27-61 and 317-320)

`GetFileAttributesA` is modelled as an oracle `os : String → Option Nat`
mapping a path to its attribute bitmask; a `none` result models
`INVALID_FILE_ATTRIBUTES`.  Calling the OS with a `NULL` path also fails
(`Option.bind`), matching `GetFileAttributesA(NULL)`. -/

/-- The Windows directory attribute bit, `FILE_ATTRIBUTE_DIRECTORY = 0x10`. -/
def FILE_ATTRIBUTE_DIRECTORY : Nat := 16

/-- Result of `GetFileAttributesA` on a possibly-null path. -/
def GetFileAttributesA (filename : Option String) (os : String → Option Nat) : Option Nat :=
  filename.bind os

/-- Shallow embedding of `file_has_attributes` (yfile.h lines 27-31):
`-1` on a null path or a failing attribute query, otherwise `0` iff all the
requested attribute bits are set and `1` otherwise. -/
def file_has_attributes (filename : Option String) (attributes : Nat)
    (os : String → Option Nat) : Int :=
  match filename with
  | none => -1
  | some f =>
    match os f with
    | none => -1
    | some attr => if attr &&& attributes = attributes then 0 else 1

/-- Shallow embedding of `file_exists` (yfile.h lines 49-51): no null
check, `0` when the attribute query succeeds, `1` otherwise. -/
def file_exists (filename : Option String) (os : String → Option Nat) : Int :=
  if GetFileAttributesA filename os ≠ none then 0 else 1

/-- Shallow embedding of `file_accessible` (yfile.h lines 58-61): `-1` on a
null path, else `1` when the attribute query fails and `0` otherwise. -/
def file_accessible (filename : Option String) (os : String → Option Nat) : Int :=
  match filename with
  | none => -1
  | some f => if os f = none then 1 else 0

/-- Shallow embedding of `file_is_directory` (yfile.h lines 317-320). -/
def file_is_directory (filename : Option String) (os : String → Option Nat) : Int :=
  match filename with
  | none => -1
  | some f => file_has_attributes (some f) FILE_ATTRIBUTE_DIRECTORY os

/-- C5 counterexample: the claim — each of the four queries returns `-1`
when the OS query fails or the path is null — is false for `file_exists`
and `file_accessible`.  With an oracle on which every attribute query fails
(`INVALID_FILE_ATTRIBUTES`), `file_exists` returns `1`, not `-1`, on both a
non-null and a null path, and `file_accessible` returns `1`, not `-1`, on a
non-null path. -/
theorem claim_C5_counterexample :
    file_exists (some "x") (fun _ => none) = 1 ∧
      file_exists (some "x") (fun _ => none) ≠ -1 ∧
      file_exists none (fun _ => none) = 1 ∧
      file_exists none (fun _ => none) ≠ -1 ∧
      file_accessible (some "x") (fun _ => none) = 1 ∧
      file_accessible (some "x") (fun _ => none) ≠ -1 := by
  refine ⟨by decide, by decide, by decide, by decide, by decide, by decide⟩

/-- C5 (amended): `file_has_attributes` and `file_is_directory` return a
ternary result with `-1` on a null path or a failing OS query;
`file_accessible` returns `-1` only on a null path and `1` (no-match) when
the OS query fails; `file_exists` never returns `-1`: it yields `1` both on
a null path and when the OS query fails, and `0` or `1` in every case. -/
theorem claim_C5_amended (f : String) (a attr : Nat) (os : String → Option Nat) :
    file_has_attributes none a os = -1 ∧
      (os f = none → file_has_attributes (some f) a os = -1) ∧
      (os f = some attr →
        file_has_attributes (some f) a os = (if attr &&& a = a then 0 else 1)) ∧
      file_is_directory none os = -1 ∧
      (os f = none → file_is_directory (some f) os = -1) ∧
      file_accessible none os = -1 ∧
      (os f = none → file_accessible (some f) os = 1) ∧
      file_exists none os = 1 ∧
      (os f = none → file_exists (some f) os = 1) ∧
      (file_exists (some f) os = 0 ∨ file_exists (some f) os = 1) := by
  refine ⟨rfl, ?_, ?_, rfl, ?_, rfl, ?_, by simp [file_exists, GetFileAttributesA], ?_, ?_⟩
  · intro h
    simp [file_has_attributes, h]
  · intro h
    simp [file_has_attributes, h]
  · intro h
    simp [file_is_directory, file_has_attributes, h]
  · intro h
    simp [file_accessible, h]
  · intro h
    simp [file_exists, GetFileAttributesA, h]
  · cases hq : os f with
    | none =>
      right
      simp [file_exists, GetFileAttributesA, hq]
    | some v =>
      left
      simp [file_exists, GetFileAttributesA, hq]

/-- Witness for C5 (amended): a failing attribute query makes
`file_has_attributes` return `-1`. -/
theorem claim_C5_witness :
    file_has_attributes (some "a") 16 (fun _ => none) = -1 :=
  (claim_C5_amended "a" 16 0 (fun _ => none)).2.1 rfl

/-! ## file_open (yfile.h lines 69-72)

`fopen` is modelled as an oracle `os : String → String → Option Nat`
returning the handle (`some h`) or `NULL` (`none`).  The output records the
returned handle and whether `fopen` was actually invoked. -/

/-- Result of a `file_open` call: the returned `FILE*` (`none` = `NULL`)
and whether the underlying OS open was invoked. -/
structure OpenOut where
  handle : Option Nat
  osInvoked : Bool
deriving DecidableEq, Repr

/-- Shallow embedding of `file_open` (yfile.h lines 69-72): the guard is
`!filename || !mode || !mode[0]` — a null path, a null mode, or an *empty
mode string* short-circuit to `NULL`; everything else, including an empty
path string, is passed to `fopen`. -/
def file_open (filename mode : Option String) (os : String → String → Option Nat) : OpenOut :=
  match filename, mode with
  | none, _ => ⟨none, false⟩
  | some _, none => ⟨none, false⟩
  | some f, some m => if m = "" then ⟨none, false⟩ else ⟨os f m, true⟩

/-- C9 counterexample: the claim — `file_open` returns null for every empty
path string — is not enforced by the code: the guard checks only
`!filename`, not `!filename[0]`, so the empty path is passed straight to
`fopen`.  In an environment whose open call yields a handle for the empty
path, `file_open ""` returns that handle, not null. -/
theorem claim_C9_counterexample :
    (file_open (some "") (some "r") (fun _ _ => some 7)).handle = some 7 ∧
      (file_open (some "") (some "r") (fun _ _ => some 7)).handle ≠ none ∧
      (file_open (some "") (some "r") (fun _ _ => some 7)).osInvoked = true := by
  refine ⟨by decide, by decide, by decide⟩

/-- C9 (amended): `file_open` returns null whenever the path argument is
absent (null), the mode argument is absent or empty, or the underlying OS
open fails; an empty path string is not rejected by the guard but handed to
the OS open, so it yields null exactly when that open fails. -/
theorem claim_C9_amended (f m : String) (os : String → String → Option Nat) :
    file_open none (some m) os = ⟨none, false⟩ ∧
      file_open none none os = ⟨none, false⟩ ∧
      file_open (some f) none os = ⟨none, false⟩ ∧
      file_open (some f) (some "") os = ⟨none, false⟩ ∧
      (m ≠ "" → file_open (some f) (some m) os = ⟨os f m, true⟩) := by
  refine ⟨rfl, rfl, rfl, by simp [file_open], ?_⟩
  intro h
  simp [file_open, h]

/-- Witness for C9 (amended): a failing OS open yields a null handle after
an invoked `fopen`. -/
theorem claim_C9_witness :
    file_open (some "a") (some "r") (fun _ _ => none) = ⟨none, true⟩ :=
  (claim_C9_amended "a" "r" (fun _ _ => none)).2.2.2.2 (by decide)

/-! ## Seeking and size queries (yfile.h lines 257-288)

A non-null `FILE*` is modelled as a `FileSt` carrying the stream position
and the file size (both natural numbers).  `_fseeki64` and `_ftelli64` are
abstracted by per-call success flags; a successful `_fseeki64` moves the
position according to the origin, a failed call leaves it unchanged. -/

/-- MSVC `stdio.h` seek origins. -/
def SEEK_SET : Int := 0

/-- Seek origin `SEEK_CUR = 1`. -/
def SEEK_CUR : Int := 1

/-- Seek origin `SEEK_END = 2`. -/
def SEEK_END : Int := 2

/-- Model of an open stream: current position and total size in bytes. -/
structure FileSt where
  pos : Nat
  size : Nat
deriving DecidableEq, Repr

/-- Result of a seek call: the returned sentinel, whether the underlying
`_fseeki64` was invoked, and the stream afterwards. -/
structure SeekOut where
  result : Int
  invoked : Bool
  fp : Option FileSt
deriving DecidableEq, Repr

/-- Position reached by a successful `_fseeki64`. -/
def seekNewPos (st : FileSt) (offset : Int) (origin : Int) : FileSt :=
  if origin = SEEK_SET then { st with pos := offset.toNat }
  else if origin = SEEK_CUR then { st with pos := ((st.pos : Int) + offset).toNat }
  else { st with pos := ((st.size : Int) + offset).toNat }

/-- Shallow embedding of `file_set_offset_ex` (yfile.h lines 257-263): the
guard `(origin != SEEK_CUR && origin != SEEK_END && (origin != SEEK_SET ||
offset < 0)) || fp == NULL` rejects the call without invoking `_fseeki64`;
otherwise the OS seek runs and its success is given by `osOk`. -/
def file_set_offset_ex (fp : Option FileSt) (offset : Int) (origin : Int) (osOk : Bool) :
    SeekOut :=
  if (origin ≠ SEEK_CUR ∧ origin ≠ SEEK_END ∧ (origin ≠ SEEK_SET ∨ offset < 0)) ∨ fp = none then
    ⟨-1, false, fp⟩
  else
    match fp with
    | none => ⟨-1, false, none⟩
    | some st =>
      if osOk then ⟨0, true, some (seekNewPos st offset origin)⟩ else ⟨-1, true, some st⟩

/-- Shallow embedding of `file_set_offset` (yfile.h lines 267-270): a
negative offset is rejected before anything else, then the call delegates
to `file_set_offset_ex` with `SEEK_SET`. -/
def file_set_offset (fp : Option FileSt) (offset : Int) (osOk : Bool) : SeekOut :=
  if offset < 0 then ⟨-1, false, fp⟩
  else file_set_offset_ex fp offset SEEK_SET osOk

/-- Shallow embedding of `file_get_offset` (yfile.h lines 273-276):
`-1` on a null stream or a failing `_ftelli64`, else the position. -/
def file_get_offset (fp : Option FileSt) (osOk : Bool) : Int :=
  match fp with
  | none => -1
  | some st => if osOk then (st.pos : Int) else -1

/-- Success flags for the four OS calls made by one `file_get_size` run:
the initial `_ftelli64`, the seek to `SEEK_END`, the `_ftelli64` at the
end, and the restoring seek back to the saved offset. -/
structure SizeEnv where
  tell1 : Bool
  seekEnd : Bool
  tell2 : Bool
  seekBack : Bool
deriving DecidableEq, Repr

/-- Result of a `file_get_size` run: the returned value and the stream
afterwards. -/
structure SizeOut where
  result : Int
  fp : Option FileSt
deriving DecidableEq, Repr

/-- Shallow embedding of `file_get_size` (yfile.h lines 280-288): save the
current offset, seek to the end, read the offset there, restore the saved
offset; `-1` as soon as any sub-step fails. -/
def file_get_size (fp : Option FileSt) (env : SizeEnv) : SizeOut :=
  match fp with
  | none => ⟨-1, none⟩
  | some _ =>
    let current := file_get_offset fp env.tell1
    if current = -1 then ⟨-1, fp⟩
    else
      let s1 := file_set_offset_ex fp 0 SEEK_END env.seekEnd
      if s1.result ≠ 0 then ⟨-1, s1.fp⟩
      else
        let size := file_get_offset s1.fp env.tell2
        if size = -1 then ⟨-1, s1.fp⟩
        else
          let s2 := file_set_offset s1.fp current env.seekBack
          if s2.result ≠ 0 then ⟨-1, s2.fp⟩
          else ⟨size, s2.fp⟩

/-- C7: `file_set_offset` rejects every negative offset with `-1` without
invoking the underlying OS seek (and leaves the stream untouched);
`file_set_offset_ex` likewise rejects a negative offset with origin
`SEEK_SET`, while for origins `SEEK_CUR` and `SEEK_END` it always invokes
the OS seek, whose outcome then decides the result; both functions fail on
a null stream without invoking the seek. -/
theorem claim_C7 (fp : Option FileSt) (offset : Int) (osOk : Bool) :
    (offset < 0 → file_set_offset fp offset osOk = ⟨-1, false, fp⟩) ∧
      (offset < 0 → file_set_offset_ex fp offset SEEK_SET osOk = ⟨-1, false, fp⟩) ∧
      (∀ st, (file_set_offset_ex (some st) offset SEEK_CUR osOk).invoked = true ∧
        (file_set_offset_ex (some st) offset SEEK_END osOk).invoked = true ∧
        (file_set_offset_ex (some st) offset SEEK_CUR osOk).result =
          (if osOk then 0 else -1) ∧
        (file_set_offset_ex (some st) offset SEEK_END osOk).result =
          (if osOk then 0 else -1)) ∧
      (∀ origin, file_set_offset_ex none offset origin osOk = ⟨-1, false, none⟩) ∧
      file_set_offset none offset osOk = ⟨-1, false, none⟩ := by
  refine ⟨?_, ?_, ?_, ?_, ?_⟩
  · intro h
    simp [file_set_offset, h]
  · intro h
    simp [file_set_offset_ex, SEEK_SET, SEEK_CUR, SEEK_END, h]
  · intro st
    cases osOk <;>
      exact ⟨by simp [file_set_offset_ex, SEEK_SET, SEEK_CUR, SEEK_END],
        by simp [file_set_offset_ex, SEEK_SET, SEEK_CUR, SEEK_END],
        by simp [file_set_offset_ex, SEEK_SET, SEEK_CUR, SEEK_END],
        by simp [file_set_offset_ex, SEEK_SET, SEEK_CUR, SEEK_END]⟩
  · intro origin
    simp [file_set_offset_ex]
  · by_cases h : offset < 0
    · simp [file_set_offset, h]
    · simp [file_set_offset, file_set_offset_ex, h]

/-- Witness for C7 at the concrete offset `-2` on a non-null stream. -/
theorem claim_C7_witness :
    file_set_offset (some ⟨0, 4⟩) (-2) true = ⟨-1, false, some ⟨0, 4⟩⟩ :=
  (claim_C7 (some ⟨0, 4⟩) (-2) true).1 (by decide)

/-- C8: `file_get_size` saves the offset, seeks to the end, reads the
offset there, and restores the saved offset — when all four sub-steps
succeed it returns the file size with the stream position unchanged; if
any sub-step fails it returns `-1`; and on failure the position is not
guaranteed to be restored, exhibited by the concrete run in which the
second `_ftelli64` fails after the seek to the end: the result is `-1` and
the position is left at the end of the file (5) instead of the original 0. -/
theorem claim_C8 (st : FileSt) (env : SizeEnv) :
    (env.tell1 = true → env.seekEnd = true → env.tell2 = true → env.seekBack = true →
      file_get_size (some st) env = ⟨(st.size : Int), some st⟩) ∧
      ((env.tell1 = true ∧ env.seekEnd = true ∧ env.tell2 = true ∧ env.seekBack = true →
          False) →
        (file_get_size (some st) env).result = -1) ∧
      (file_get_size none env).result = -1 ∧
      file_get_size (some ⟨0, 5⟩) ⟨true, true, false, true⟩ = ⟨-1, some ⟨5, 5⟩⟩ := by
  obtain ⟨p, sz⟩ := st
  obtain ⟨t1, sE, t2, sB⟩ := env
  have hp : ¬((p : Int) = -1) := by omega
  have hs : ¬((sz : Int) = -1) := by omega
  have hp0 : ¬((p : Int) < 0) := by omega
  refine ⟨?_, ?_, rfl, by decide⟩
  · intro h1 h2 h3 h4
    subst h1 h2 h3 h4
    simp [file_get_size, file_get_offset, file_set_offset, file_set_offset_ex, seekNewPos,
      SEEK_SET, SEEK_CUR, SEEK_END, hp, hs, hp0]
  · intro h
    cases t1 <;> cases sE <;> cases t2 <;> cases sB
    all_goals
      first
      | exact (h ⟨rfl, rfl, rfl, rfl⟩).elim
      | simp [file_get_size, file_get_offset, file_set_offset, file_set_offset_ex, seekNewPos,
          SEEK_SET, SEEK_CUR, SEEK_END, hp, hs, hp0]

/-- Witness for C8: a fully successful run on the stream at position 1 of a
4-byte file returns 4 and restores position 1. -/
theorem claim_C8_witness :
    file_get_size (some ⟨1, 4⟩) ⟨true, true, true, true⟩ = ⟨(4 : Int), some ⟨1, 4⟩⟩ :=
  (claim_C8 ⟨1, 4⟩ ⟨true, true, true, true⟩).1 rfl rfl rfl rfl

/-! ## Directory creation (yfile.h lines 324-373)

`CreateDirectoryA` with its security attributes is abstracted by a stateful
oracle `createA : σ → List Char → Option Nat × σ` over an arbitrary
filesystem state `σ`: `none` models a successful creation, `some e` a
failure whose last-error code is `e`.  `file_ensure_directory_ex` copies
the path, strips one trailing separator, walks the copy from index 1
creating every separator-delimited prefix (overwriting each visited
separator with a backslash, as the C code restores `*p = '\\'`), ignores
those intermediate results, and creates the full path.  When that final
create fails, line 366 runs `if (file_last_error_is(ERROR_ALREADY_EXISTS))
{ return 0; }` and falls through to `return -1`; since `file_last_error_is`
(line 436) returns 0 on a match and 1 otherwise, and C treats any nonzero
value as true, the `return 0` body runs exactly when the last error is NOT
`ERROR_ALREADY_EXISTS` — the inverse of the comment "If directory already
exists, treat as success." directly above it. -/

/-- Separator test of the loop on yfile.h line 353. -/
def isSep (c : Char) : Bool := c == '\\' || c == '/'

/-- The Windows error code `ERROR_ALREADY_EXISTS` (183). -/
def ERROR_ALREADY_EXISTS : Nat := 183

/-- Trailing-separator strip of yfile.h lines 347-349. -/
def stripTrailing (tmp : List Char) : List Char :=
  match tmp.getLast? with
  | some c => if isSep c then tmp.dropLast else tmp
  | none => tmp

/-- The path walk of yfile.h lines 352-357: `done` holds the processed
characters in reverse; at each separator the prefix processed so far is
recorded as an intermediate create call and the separator is replaced by a
backslash.  Returns the intermediate calls in order and the final string. -/
def ensurePathsAux : List Char → List Char → List (List Char) × List Char
  | done, [] => ([], done.reverse)
  | done, c :: rest =>
    if isSep c then
      (done.reverse :: (ensurePathsAux ('\\' :: done) rest).1,
        (ensurePathsAux ('\\' :: done) rest).2)
    else ensurePathsAux (c :: done) rest

/-- The walk starts at index 1: the first character is never treated as a
separator. -/
def ensurePaths (tmp : List Char) : List (List Char) × List Char :=
  match tmp with
  | [] => ([], [])
  | c :: rest => ensurePathsAux [c] rest

/-- Result of one `CreateDirectoryA` wrapper call. -/
structure CreateOut (σ : Type) where
  ret : Int
  lastErr : Option Nat
  st : σ
deriving Repr

/-- Shallow embedding of `create_directory_part_ex` (yfile.h lines
324-326): `0` when `CreateDirectoryA` succeeds, `1` when it fails, with the
last-error code it set. -/
def create_directory_part_ex {σ : Type} (createA : σ → List Char → Option Nat × σ)
    (s : σ) (part_path : List Char) : CreateOut σ :=
  match createA s part_path with
  | (none, s2) => ⟨0, none, s2⟩
  | (some e, s2) => ⟨1, some e, s2⟩

/-- Observable result of a `file_ensure_directory_ex` run: the returned
sentinel, the intermediate create calls in order, the final create call,
the last-error of the final call (`none` when it succeeded), and the
filesystem state afterwards. -/
structure EnsureOut (σ : Type) where
  result : Int
  interCalls : List (List Char)
  finalCall : List Char
  finalErr : Option Nat
  state : σ

/-- Shallow embedding of `file_last_error_is` (yfile.h lines 435-437):
`0` when the last error equals `err`, `1` when it does not. -/
def file_last_error_is (lastError err : Nat) : Int :=
  if lastError = err then 0 else 1

/-- `file_last_error_is` follows the 0-on-match convention, so a C
`if (file_last_error_is(e))` body runs exactly when the last error is
NOT `e`. -/
theorem file_last_error_is_eq_zero (lastError err : Nat) :
    file_last_error_is lastError err = 0 ↔ lastError = err := by
  unfold file_last_error_is
  split <;> simp_all

/-- Create sequence of `file_ensure_directory_ex` (yfile.h lines 352-372):
intermediate creates with ignored results, then the final create.  When the
final create fails (`ret ≠ 0`), its last-error `e` is tested exactly as the
C does on line 366: `if (file_last_error_is(ERROR_ALREADY_EXISTS)) return
0;` — the body runs when `file_last_error_is` is nonzero, i.e. when `e` is
NOT `ERROR_ALREADY_EXISTS` — and otherwise the fall-through `return -1`
executes.  (The `none` error branch under `ret ≠ 0` is unreachable: a
failed create always carries the error code it set.) -/
def ensureRun {σ : Type} (createA : σ → List Char → Option Nat × σ)
    (inters : List (List Char)) (fin : List Char) (s : σ) : EnsureOut σ :=
  match create_directory_part_ex createA
      (inters.foldl (fun st d => (create_directory_part_ex createA st d).st) s) fin with
  | ⟨ret, err, s2⟩ =>
    if ret ≠ 0 then
      match err with
      | some e =>
        if file_last_error_is e ERROR_ALREADY_EXISTS ≠ 0 then ⟨0, inters, fin, err, s2⟩
        else ⟨-1, inters, fin, err, s2⟩
      | none => ⟨-1, inters, fin, err, s2⟩
    else ⟨0, inters, fin, err, s2⟩

/-- Shallow embedding of `file_ensure_directory_ex` (yfile.h lines
336-373): `-1` on a null or empty path or a failed copy allocation,
otherwise the create sequence over the split path. -/
def file_ensure_directory_ex {σ : Type} (createA : σ → List Char → Option Nat × σ)
    (path : Option (List Char)) (allocOk : Bool) (s : σ) : EnsureOut σ :=
  match path with
  | none => ⟨-1, [], [], none, s⟩
  | some p =>
    if p = [] then ⟨-1, [], [], none, s⟩
    else if allocOk = false then ⟨-1, [], [], none, s⟩
    else
      ensureRun createA (ensurePaths (stripTrailing p)).1 (ensurePaths (stripTrailing p)).2 s

/-- Idealized filesystem: the state lists the existing directories,
creation of an existing one fails with `ERROR_ALREADY_EXISTS`, creation of
a missing one always succeeds. -/
def idealCreate (fs : List (List Char)) (d : List Char) : Option Nat × List (List Char) :=
  if d ∈ fs then (some ERROR_ALREADY_EXISTS, fs) else (none, d :: fs)

/-- The final string of the walk extends the processed prefix by exactly
the remaining characters. -/
theorem ensurePathsAux_final (rest : List Char) :
    ∀ done : List Char, ∃ ext, (ensurePathsAux done rest).2 = done.reverse ++ ext ∧
      ext.length = rest.length := by
  induction rest with
  | nil =>
    intro done
    exact ⟨[], by simp [ensurePathsAux], rfl⟩
  | cons c rest ih =>
    intro done
    by_cases h : isSep c = true
    · obtain ⟨ext, he, hl⟩ := ih ('\\' :: done)
      refine ⟨'\\' :: ext, ?_, by simp [hl]⟩
      simp [ensurePathsAux, h, he]
    · obtain ⟨ext, he, hl⟩ := ih (c :: done)
      refine ⟨c :: ext, ?_, by simp [hl]⟩
      simp [ensurePathsAux, h, he]

/-- Every intermediate call of the walk extends the processed prefix, and
the final string strictly extends every intermediate call. -/
theorem ensurePathsAux_calls (rest : List Char) :
    ∀ done x, x ∈ (ensurePathsAux done rest).1 →
      (∃ e1, x = done.reverse ++ e1) ∧
      (∃ e2, (ensurePathsAux done rest).2 = x ++ e2 ∧ e2 ≠ []) := by
  induction rest with
  | nil =>
    intro done x hx
    exact absurd hx (by simp [ensurePathsAux])
  | cons c rest ih =>
    intro done x hx
    by_cases h : isSep c = true
    · simp only [ensurePathsAux, h, if_true] at hx ⊢
      rcases List.mem_cons.mp hx with rfl | hx2
      · refine ⟨⟨[], by simp⟩, ?_⟩
        obtain ⟨ext, he, hl⟩ := ensurePathsAux_final rest ('\\' :: done)
        exact ⟨'\\' :: ext, by simp [he], by simp⟩
      · obtain ⟨⟨e1, he1⟩, ⟨e2, he2, hne⟩⟩ := ih ('\\' :: done) x hx2
        refine ⟨⟨'\\' :: e1, ?_⟩, ⟨e2, he2, hne⟩⟩
        simpa using he1
    · simp only [ensurePathsAux, h, if_false] at hx ⊢
      obtain ⟨⟨e1, he1⟩, ⟨e2, he2, hne⟩⟩ := ih (c :: done) x hx
      refine ⟨⟨c :: e1, ?_⟩, ⟨e2, he2, hne⟩⟩
      simpa using he1

/-- The intermediate calls of the walk form a chain of strict extensions,
from the root prefix to the leaf. -/
theorem ensurePathsAux_pairwise (rest : List Char) :
    ∀ done, List.Pairwise (fun a b => ∃ t, b = a ++ t ∧ t ≠ [])
      (ensurePathsAux done rest).1 := by
  induction rest with
  | nil =>
    intro done
    simp [ensurePathsAux]
  | cons c rest ih =>
    intro done
    by_cases h : isSep c = true
    · simp only [ensurePathsAux, h, if_true]
      refine List.Pairwise.cons ?_ (ih ('\\' :: done))
      intro b hb
      obtain ⟨⟨e1, he1⟩, _⟩ := ensurePathsAux_calls rest ('\\' :: done) b hb
      refine ⟨'\\' :: e1, ?_, by simp⟩
      simpa using he1
    · simp only [ensurePathsAux, h, if_false]
      exact ih (c :: done)

/-- Chain and extension facts lifted to `ensurePaths`. -/
theorem ensurePaths_props (tmp : List Char) :
    List.Pairwise (fun a b => ∃ t, b = a ++ t ∧ t ≠ []) (ensurePaths tmp).1 ∧
      ∀ x ∈ (ensurePaths tmp).1, ∃ e, (ensurePaths tmp).2 = x ++ e ∧ e ≠ [] := by
  cases tmp with
  | nil => simp [ensurePaths]
  | cons c rest =>
    exact ⟨ensurePathsAux_pairwise rest [c],
      fun x hx => (ensurePathsAux_calls rest [c] x hx).2⟩

/-- A strict extension is a proper prefix: shorter, and recovered by
`take`. -/
theorem strict_extension_take {a b : List Char} (h : ∃ t, b = a ++ t ∧ t ≠ []) :
    a.length < b.length ∧ b.take a.length = a := by
  obtain ⟨t, rfl, hne⟩ := h
  have ht : 0 < t.length := List.length_pos.mpr hne
  constructor
  · simp only [List.length_append]
    omega
  · exact List.take_left a t

/-- `create_directory_part_ex` returns `0` with no error exactly when the
oracle succeeds, and `1` with the error code it set otherwise. -/
theorem create_part_cases {σ : Type} (createA : σ → List Char → Option Nat × σ) (s : σ)
    (d : List Char) :
    ((create_directory_part_ex createA s d).ret = 0 ∧
        (create_directory_part_ex createA s d).lastErr = none) ∨
      ((create_directory_part_ex createA s d).ret = 1 ∧
        ∃ e, (create_directory_part_ex createA s d).lastErr = some e) := by
  rcases hq : createA s d with ⟨e, s2⟩
  cases e <;> simp [create_directory_part_ex, hq]

/-- The create sequence records the given calls, and — since
`file_last_error_is` returns 0 on a match and line 366 tests its raw value
as a C boolean — returns `-1` exactly when the final create failed with
`ERROR_ALREADY_EXISTS`, and `0` both when the final create succeeded and
when it failed with any other error. -/
theorem ensureRun_spec {σ : Type} (createA : σ → List Char → Option Nat × σ)
    (inters : List (List Char)) (fin : List Char) (s : σ) :
    (ensureRun createA inters fin s).interCalls = inters ∧
      (ensureRun createA inters fin s).finalCall = fin ∧
      ((ensureRun createA inters fin s).result = -1 ↔
        (ensureRun createA inters fin s).finalErr = some ERROR_ALREADY_EXISTS) ∧
      ((ensureRun createA inters fin s).result = 0 ∨
        (ensureRun createA inters fin s).result = -1) := by
  have hc := create_part_cases createA
    (inters.foldl (fun st d => (create_directory_part_ex createA st d).st) s) fin
  unfold ensureRun
  rcases h : create_directory_part_ex createA
      (inters.foldl (fun st d => (create_directory_part_ex createA st d).st) s) fin
    with ⟨ret, err, s2⟩
  rw [h] at hc
  simp only at hc
  rcases hc with ⟨h0, he⟩ | ⟨h1, e, he⟩
  · subst h0
    subst he
    simp
  · subst h1
    subst he
    by_cases ha : e = ERROR_ALREADY_EXISTS
    · subst ha
      simp [file_last_error_is]
    · simp [file_last_error_is, ha]

/-- On a non-null, non-empty path with a successful copy allocation,
`file_ensure_directory_ex` is the create sequence over the split path. -/
theorem ensure_unfold {σ : Type} (createA : σ → List Char → Option Nat × σ)
    (p : List Char) (hp : p ≠ []) (s : σ) :
    file_ensure_directory_ex createA (some p) true s =
      ensureRun createA (ensurePaths (stripTrailing p)).1 (ensurePaths (stripTrailing p)).2 s := by
  simp [file_ensure_directory_ex, hp]

/-- The create calls recorded by `file_ensure_directory_ex` on a non-null,
non-empty path — the intermediates followed by the final path — form a
chain of proper prefixes, in order from root to leaf.  (This half of the
claim is faithful to the code; the already-exists handling is not, see
`claim_C6_bug`.) -/
theorem ensure_calls_chain {σ : Type} (createA : σ → List Char → Option Nat × σ)
    (p : List Char) (hp : p ≠ []) (s : σ) :
    List.Pairwise (fun a b => a.length < b.length ∧ b.take a.length = a)
      ((file_ensure_directory_ex createA (some p) true s).interCalls ++
        [(file_ensure_directory_ex createA (some p) true s).finalCall]) := by
  rw [ensure_unfold createA p hp s]
  obtain ⟨hi, hf, _, _⟩ := ensureRun_spec createA (ensurePaths (stripTrailing p)).1
    (ensurePaths (stripTrailing p)).2 s
  rw [hi, hf]
  apply List.pairwise_append.mpr
  refine ⟨?_, by simp, ?_⟩
  · exact ((ensurePaths_props (stripTrailing p)).1).imp fun hab => strict_extension_take hab
  · intro a ha b hb
    rw [List.mem_singleton] at hb
    subst hb
    exact strict_extension_take ((ensurePaths_props (stripTrailing p)).2 a ha)

/-- C6 (code bug, yfile.h line 366): the claim states the code's own intent
(the comment "If directory already exists, treat as success." and the
spec's downgrade rule), but the code does the inverse.  Because
`file_last_error_is` returns 0 on a match and 1 otherwise, and the C `if`
treats any nonzero value as true, the `return 0` on line 367 runs exactly
when the final create's error is NOT `ERROR_ALREADY_EXISTS`, and the
fall-through `return -1` runs when it IS.  Concretely, over the idealized
filesystem: ensuring `a/b` on a fresh root succeeds, but the second,
identical call returns `-1` because the final create fails with
`ERROR_ALREADY_EXISTS` — calling it twice is not idempotent; and with an
oracle whose creates fail with the genuine error code 5
(`ERROR_ACCESS_DENIED`), the function returns 0, absorbing the genuine
creation error. -/
theorem claim_C6_bug :
    (file_ensure_directory_ex idealCreate (some ['a', '/', 'b']) true
        ([] : List (List Char))).result = 0 ∧
      (file_ensure_directory_ex idealCreate (some ['a', '/', 'b']) true
          ((file_ensure_directory_ex idealCreate (some ['a', '/', 'b']) true
            ([] : List (List Char))).state)).result = -1 ∧
      (file_ensure_directory_ex (fun s _ => (some 5, s)) (some ['a']) true ()).result = 0 := by
  refine ⟨rfl, rfl, rfl⟩
